import Mathlib

/-!
Shallow embedding of the computational core of `compareretries`
(`src/components/retry-algorithm-comparison.tsx`): the backoff engine
`calculateRetryDurations`, the duration formatter `formatTime`, and the
chart-frame derivation `chartData`.

Modelling choices:
* JavaScript numbers are modelled as `ℚ` (the claims under study concern
  exact arithmetic identities, not binary floating-point rounding).
* `Math.random()` is modelled as an explicit stream `rand : ℕ → ℚ` of draws;
  the k-th call to `Math.random()` during a computation reads `rand k`.
  A real draw satisfies `0 ≤ rand k < 1`.
* The optional field `maxDuration` is `Option ℚ`; the JavaScript truthiness
  test `config.maxDuration` is `some m` with `m ≠ 0`.
-/

inductive RetryType
  | linear
  | exponential
  | cappedExponential
deriving DecidableEq, Repr, Inhabited

/-- The `RetryConfig` interface of the source. -/
structure RetryConfig where
  type : RetryType
  initialDelay : ℚ
  factor : ℚ
  maxDuration : Option ℚ := none
  jitter : Bool
  jitterRange : ℚ
deriving DecidableEq, Repr, Inhabited

/-- The growth part of one loop iteration of `calculateRetryDurations`
(source lines 30–37): `currentDelay += factor` for `linear`,
`currentDelay *= factor` for the exponential kinds, then
`currentDelay = Math.min(currentDelay, maxDuration)` when the type is
`capped-exponential` and `maxDuration` is truthy (present and nonzero). -/
def growDelay (config : RetryConfig) (currentDelay : ℚ) : ℚ :=
  match config.type with
  | .linear => currentDelay + config.factor
  | .exponential => currentDelay * config.factor
  | .cappedExponential =>
      let grown := currentDelay * config.factor
      match config.maxDuration with
      | some m => if m = 0 then grown else min grown m
      | none => grown

/-- The jitter part of one loop iteration (source lines 39–42):
`jitter = (Math.random() * 2 - 1) * jitterRange;
 currentDelay = Math.max(0, currentDelay + jitter)`, applied only when
`config.jitter` holds. `r` is the `Math.random()` draw. -/
def applyJitter (config : RetryConfig) (r : ℚ) (delay : ℚ) : ℚ :=
  if config.jitter then max 0 (delay + (r * 2 - 1) * config.jitterRange)
  else delay

/-- One full loop iteration: growth then jitter. -/
def stepDelay (config : RetryConfig) (r : ℚ) (d : ℚ) : ℚ :=
  applyJitter config r (growDelay config d)

/-- The value of the mutable `currentDelay` after loop iteration `i`
(`i = 0` is its initial value `config.initialDelay`). Iteration `i + 1`
consumes draw `rand i` (the i-th `Math.random()` call, which only happens
when `config.jitter` is true; a jitter-free run reads no draw). -/
def currentDelayAt (config : RetryConfig) (rand : ℕ → ℚ) : ℕ → ℚ
  | 0 => config.initialDelay
  | i + 1 => stepDelay config (rand i) (currentDelayAt config rand i)

/-- Entry `durations[i]`: the cumulative elapsed time pushed at loop iteration `i`
(`durations[0] = config.initialDelay`;
 `durations.push(durations[i-1] + currentDelay)` at iteration `i`). -/
def cumulativeAt (config : RetryConfig) (rand : ℕ → ℚ) : ℕ → ℚ
  | 0 => config.initialDelay
  | i + 1 => cumulativeAt config rand i + currentDelayAt config rand (i + 1)

/-- The function `calculateRetryDurations(config, maxRetries)` (source lines 25–48): the
list `durations`. The loop runs `i = 1` while `i < maxRetries`, and the list
starts as `[config.initialDelay]`, so the result has `max 1 maxRetries`
entries. -/
def calculateRetryDurations (config : RetryConfig) (rand : ℕ → ℚ)
    (maxRetries : ℕ) : List ℚ :=
  (List.range (max 1 maxRetries)).map (cumulativeAt config rand)

/-- The jitter-free per-step raw delay of a configuration: the value of
`currentDelay` after iteration `i` when the jitter branch is disabled
(it then reads no draw, so the draw stream is irrelevant). -/
def rawDelayAt (config : RetryConfig) (i : ℕ) : ℚ :=
  currentDelayAt { config with jitter := false } (fun _ => 0) i

/-- The per-step delay recovered from a durations list as the claims define
it: step 0 is `durations[0]`, step `i ≥ 1` is `durations[i] - durations[i-1]`. -/
def stepDelayOfDurations (l : List ℚ) (i : ℕ) : ℚ :=
  if i = 0 then l.getD 0 0 else l.getD i 0 - l.getD (i - 1) 0

/-- Decimal rendering with two fraction digits, the idealised semantics of
JavaScript's `Number.prototype.toFixed(2)` for a non-negative value: round
`q * 100` to the nearest integer (half up) and print it with the last two
digits after a point. -/
def toFixed2 (q : ℚ) : String :=
  let n : ℕ := (Int.floor (q * 100 + 1 / 2)).toNat
  let frac : ℕ := n % 100
  toString (n / 100) ++ "." ++ (if frac < 10 then "0" else "") ++ toString frac

/-- The formatter `formatTime` (source lines 50–60). -/
def formatTime (milliseconds : ℚ) : String :=
  if milliseconds < 1000 then toFixed2 milliseconds ++ "ms"
  else if milliseconds < 60000 then toFixed2 (milliseconds / 1000) ++ "s"
  else if milliseconds < 3600000 then toFixed2 (milliseconds / 60000) ++ "m"
  else toFixed2 (milliseconds / 3600000) ++ "h"

/-- How many `Math.random()` draws one call of `calculateRetryDurations`
consumes: one per loop iteration when `jitter` is set, none otherwise. -/
def drawsConsumed (config : RetryConfig) (maxRetries : ℕ) : ℕ :=
  if config.jitter then max 1 maxRetries - 1 else 0

/-- The draw stream as seen by a computation that starts after `off` draws
have already been consumed from the global source. -/
def shiftStream (rand : ℕ → ℚ) (off : ℕ) : ℕ → ℚ :=
  fun k => rand (off + k)

/-- One row of `chartData` (source lines 134–141): for each configuration in
order the code calls `calculateRetryDurations(config, globalMaxRetries)`
afresh (consuming that call's draws from the global random source) and
stores `i === 0 ? 0 : durations[i - 1]`. `off` is the number of draws
consumed before this row reaches the given configuration list. -/
def chartRowValues (maxRetries i : ℕ) (rand : ℕ → ℚ) :
    List RetryConfig → ℕ → List ℚ
  | [], _ => []
  | c :: rest, off =>
      (if i = 0 then 0
       else (calculateRetryDurations c (shiftStream rand off) maxRetries).getD
              (i - 1) 0)
        :: chartRowValues maxRetries i rand rest (off + drawsConsumed c maxRetries)

/-- Draws consumed by one full row (every configuration once). -/
def rowDraws (configs : List RetryConfig) (maxRetries : ℕ) : ℕ :=
  (configs.map (fun c => drawsConsumed c maxRetries)).sum

/-- The chart frame `chartData` (source lines 131–144): one entry per retry count
`i = 0 .. maxRetries`, each holding `retryCount = i` and the per-configuration
column values. Rows are built in order, so row `i` starts after
`i * rowDraws` draws of the global random source. -/
def chartData (configs : List RetryConfig) (maxRetries : ℕ) (rand : ℕ → ℚ) :
    List (ℕ × List ℚ) :=
  (List.range (maxRetries + 1)).map
    (fun i => (i, chartRowValues maxRetries i rand configs (i * rowDraws configs maxRetries)))

/-- The column value of the chart frame at retry count `i` for the `j`-th
configuration. -/
def chartValue (configs : List RetryConfig) (maxRetries : ℕ) (rand : ℕ → ℚ)
    (i j : ℕ) : ℚ :=
  (((chartData configs maxRetries rand).getD i (0, [])).2).getD j 0

/-- A draw stream made only of values `Math.random()` can return. -/
def ValidDraws (rand : ℕ → ℚ) : Prop :=
  ∀ k, 0 ≤ rand k ∧ rand k < 1

/-- Modelled from the spec (claim C10's reading of "the output of the same
configuration with jitter = false except that each per-step delay is replaced
by max(0, delay)"): cumulative sums of the pointwise-clamped jitter-free
per-step delays. -/
def pointwiseClampedCumulative (config : RetryConfig) : ℕ → ℚ
  | 0 => max 0 (rawDelayAt config 0)
  | i + 1 => pointwiseClampedCumulative config i + max 0 (rawDelayAt config (i + 1))

/-- The recursively clamped delay sequence: `initialDelay`, then at each step
the growth rule applied to the previous clamped delay, clamped at 0. This is
what the code computes when `jitter` is true and `jitterRange = 0`. -/
def recClampDelay (config : RetryConfig) : ℕ → ℚ
  | 0 => config.initialDelay
  | i + 1 => max 0 (growDelay config (recClampDelay config i))

/-- Cumulative sums of `recClampDelay`. -/
def recClampCumulative (config : RetryConfig) : ℕ → ℚ
  | 0 => config.initialDelay
  | i + 1 => recClampCumulative config i + recClampDelay config (i + 1)

/-! ### Concrete fixtures used by witnesses and counterexamples -/

/-- The draw stream of a run whose `Math.random()` always returns 0. -/
def zeroDraws : ℕ → ℚ := fun _ => 0

/-- The draw stream of a run whose `Math.random()` always returns 1/2
(zero realised jitter). -/
def halfDraws : ℕ → ℚ := fun _ => 1 / 2

/-- The draw stream of a run whose `Math.random()` always returns 3/4. -/
def threeQuarterDraws : ℕ → ℚ := fun _ => 3 / 4

/-- The spec's linear example: `{type: linear, initialDelay: 1000,
factor: 1000, jitter: false}`. -/
def cfgLinearExample : RetryConfig :=
  { type := .linear, initialDelay := 1000, factor := 1000,
    jitter := false, jitterRange := 3 }

/-- The spec's capped example: capped-exponential, `initialDelay = 1000`,
`factor = 2`, `maxDuration = 5000`, no jitter. -/
def cfgCappedExample : RetryConfig :=
  { type := .cappedExponential, initialDelay := 1000, factor := 2,
    maxDuration := some 5000, jitter := false, jitterRange := 3 }

/-- A capped-exponential configuration whose cap is below `initialDelay`. -/
def cfgCapBelowInitial : RetryConfig :=
  { type := .cappedExponential, initialDelay := 1000, factor := 2,
    maxDuration := some 500, jitter := false, jitterRange := 3 }

/-- A capped-exponential configuration with `maxDuration = 0` (falsy in
JavaScript, so the cap never applies). -/
def cfgCapZero : RetryConfig :=
  { type := .cappedExponential, initialDelay := 1000, factor := 2,
    maxDuration := some 0, jitter := false, jitterRange := 3 }

/-- Exponential growth with jitter: `initialDelay = 1000`, `factor = 2`,
`jitterRange = 100`. -/
def cfgExpJitter : RetryConfig :=
  { type := .exponential, initialDelay := 1000, factor := 2,
    jitter := true, jitterRange := 100 }

/-- The draw stream whose `Math.random()` always returns 199/200
(realised jitter `+99` for `jitterRange = 100`). -/
def highDraws : ℕ → ℚ := fun _ => 199 / 200

/-- A linear configuration with a negative increment. -/
def cfgLinearNegFactor : RetryConfig :=
  { type := .linear, initialDelay := 1000, factor := -2000,
    jitter := false, jitterRange := 3 }

/-- A linear configuration whose second raw delay is negative. -/
def cfgLinearNegDelay : RetryConfig :=
  { type := .linear, initialDelay := 0, factor := -1,
    jitter := false, jitterRange := 0 }

/-- A jittered configuration whose growth rule sinks every per-step delay
so far below zero that the clamp erases the jitter entirely. -/
def cfgJitterSwamped : RetryConfig :=
  { type := .linear, initialDelay := 0, factor := -2,
    jitter := true, jitterRange := 1 }

/-- A jittered exponential configuration whose compounding magnifies the
jitter of earlier steps: `initialDelay = 1`, `factor = 100`,
`jitterRange = 1`. -/
def cfgExpCompound : RetryConfig :=
  { type := .exponential, initialDelay := 1, factor := 100,
    jitter := true, jitterRange := 1 }

/-- The global draw stream of one concrete recompute: draw 4 (read by the
engine call of chart row 2) is 1/2, draw 7 (the second draw of the call of
row 3) is 1/2, every other draw is 0. -/
def mixedStream : ℕ → ℚ := fun k => if k = 4 then 1 / 2 else if k = 7 then 1 / 2 else 0

/-- An exponential configuration with `factor = -2` and zero-range jitter:
the clamp of step 1 changes the base that step 2 compounds on. -/
def cfgExpNegFactor : RetryConfig :=
  { type := .exponential, initialDelay := 1, factor := -2,
    jitter := true, jitterRange := 0 }

/-! ### General lemmas about the engine -/

theorem growDelay_of_linear (config : RetryConfig) (h : config.type = .linear)
    (d : ℚ) : growDelay config d = d + config.factor := by
  simp [growDelay, h]

theorem growDelay_of_exponential (config : RetryConfig)
    (h : config.type = .exponential) (d : ℚ) :
    growDelay config d = d * config.factor := by
  simp [growDelay, h]

theorem growDelay_of_capped_none (config : RetryConfig)
    (ht : config.type = .cappedExponential) (hm : config.maxDuration = none)
    (d : ℚ) : growDelay config d = d * config.factor := by
  simp [growDelay, ht, hm]

theorem growDelay_of_capped_zero (config : RetryConfig)
    (ht : config.type = .cappedExponential) (hm : config.maxDuration = some 0)
    (d : ℚ) : growDelay config d = d * config.factor := by
  simp [growDelay, ht, hm]

theorem growDelay_of_capped (config : RetryConfig)
    (ht : config.type = .cappedExponential) {m : ℚ}
    (hm : config.maxDuration = some m) (h0 : m ≠ 0) (d : ℚ) :
    growDelay config d = min (d * config.factor) m := by
  simp [growDelay, ht, hm, h0]

theorem applyJitter_of_false (config : RetryConfig) (h : config.jitter = false)
    (r d : ℚ) : applyJitter config r d = d := by
  simp [applyJitter, h]

theorem applyJitter_of_true (config : RetryConfig) (h : config.jitter = true)
    (r d : ℚ) :
    applyJitter config r d = max 0 (d + (r * 2 - 1) * config.jitterRange) := by
  simp [applyJitter, h]

theorem calcRD_length (config : RetryConfig) (rand : ℕ → ℚ) (n : ℕ) :
    (calculateRetryDurations config rand n).length = max 1 n := by
  simp [calculateRetryDurations]

theorem calcRD_getD (config : RetryConfig) (rand : ℕ → ℚ) {n i : ℕ}
    (h : i < max 1 n) :
    (calculateRetryDurations config rand n).getD i 0
      = cumulativeAt config rand i := by
  have hlen : i < ((List.range (max 1 n)).map (cumulativeAt config rand)).length := by
    simpa using h
  rw [calculateRetryDurations, List.getD_eq_getElem _ _ hlen]
  simp

theorem stepDelayOf_calcRD (config : RetryConfig) (rand : ℕ → ℚ) {n i : ℕ}
    (h : i < max 1 n) :
    stepDelayOfDurations (calculateRetryDurations config rand n) i
      = currentDelayAt config rand i := by
  rcases i with _ | k
  · rw [stepDelayOfDurations, if_pos rfl, calcRD_getD config rand h]
    rfl
  · have hk : k < max 1 n := Nat.lt_of_succ_lt h
    rw [stepDelayOfDurations, if_neg (Nat.succ_ne_zero k)]
    simp only [Nat.add_sub_cancel]
    rw [calcRD_getD config rand h, calcRD_getD config rand hk, cumulativeAt]
    exact add_sub_cancel_left _ _

theorem currentDelayAt_eq_of_jitter_false (config : RetryConfig)
    (h : config.jitter = false) (rand rand' : ℕ → ℚ) (i : ℕ) :
    currentDelayAt config rand i = currentDelayAt config rand' i := by
  induction i with
  | zero => rfl
  | succ k ih => simp [currentDelayAt, stepDelay, applyJitter_of_false config h, ih]

theorem cumulativeAt_eq_of_jitter_false (config : RetryConfig)
    (h : config.jitter = false) (rand rand' : ℕ → ℚ) (i : ℕ) :
    cumulativeAt config rand i = cumulativeAt config rand' i := by
  induction i with
  | zero => rfl
  | succ k ih =>
      simp [cumulativeAt, ih, currentDelayAt_eq_of_jitter_false config h rand rand']

theorem calcRD_eq_of_jitter_false (config : RetryConfig)
    (h : config.jitter = false) (rand rand' : ℕ → ℚ) (n : ℕ) :
    calculateRetryDurations config rand n
      = calculateRetryDurations config rand' n := by
  unfold calculateRetryDurations
  exact List.map_congr_left
    (fun i _ => cumulativeAt_eq_of_jitter_false config h rand rand' i)

theorem setJitterFalse_eq_self (config : RetryConfig)
    (h : config.jitter = false) :
    ({ config with jitter := false } : RetryConfig) = config := by
  cases config
  simp_all

theorem rawDelayAt_eq_currentDelayAt (config : RetryConfig)
    (h : config.jitter = false) (rand : ℕ → ℚ) (i : ℕ) :
    rawDelayAt config i = currentDelayAt config rand i := by
  rw [rawDelayAt, setJitterFalse_eq_self config h]
  exact currentDelayAt_eq_of_jitter_false config h _ rand i

theorem growDelay_nonneg (config : RetryConfig) (hf : 0 ≤ config.factor)
    (hM : ∀ m ∈ config.maxDuration, 0 ≤ m) {d : ℚ} (hd : 0 ≤ d) :
    0 ≤ growDelay config d := by
  rcases htype : config.type with _ | _ | _
  · rw [growDelay_of_linear config htype]
    exact add_nonneg hd hf
  · rw [growDelay_of_exponential config htype]
    exact mul_nonneg hd hf
  · rcases hm : config.maxDuration with _ | m
    · rw [growDelay_of_capped_none config htype hm]
      exact mul_nonneg hd hf
    · by_cases h0 : m = 0
      · rw [h0] at hm
        rw [growDelay_of_capped_zero config htype hm]
        exact mul_nonneg hd hf
      · rw [growDelay_of_capped config htype hm h0]
        exact le_min (mul_nonneg hd hf) (hM m (by simp [hm]))

theorem currentDelayAt_nonneg (config : RetryConfig) (rand : ℕ → ℚ)
    (hd : 0 ≤ config.initialDelay) (hf : 0 ≤ config.factor)
    (hM : ∀ m ∈ config.maxDuration, 0 ≤ m) :
    ∀ i, 0 ≤ currentDelayAt config rand i
  | 0 => hd
  | i + 1 => by
      rw [currentDelayAt, stepDelay]
      cases hj : config.jitter with
      | false =>
          rw [applyJitter_of_false config hj]
          exact growDelay_nonneg config hf hM
            (currentDelayAt_nonneg config rand hd hf hM i)
      | true =>
          rw [applyJitter_of_true config hj]
          exact le_max_left 0 _

theorem cumulativeAt_nonneg (config : RetryConfig) (rand : ℕ → ℚ)
    (hd : 0 ≤ config.initialDelay) (hf : 0 ≤ config.factor)
    (hM : ∀ m ∈ config.maxDuration, 0 ≤ m) :
    ∀ i, 0 ≤ cumulativeAt config rand i
  | 0 => hd
  | i + 1 =>
      add_nonneg (cumulativeAt_nonneg config rand hd hf hM i)
        (currentDelayAt_nonneg config rand hd hf hM (i + 1))

theorem cumulativeAt_mono (config : RetryConfig) (rand : ℕ → ℚ)
    (hd : 0 ≤ config.initialDelay) (hf : 0 ≤ config.factor)
    (hM : ∀ m ∈ config.maxDuration, 0 ≤ m) {i j : ℕ} (hij : i ≤ j) :
    cumulativeAt config rand i ≤ cumulativeAt config rand j := by
  induction j, hij using Nat.le_induction with
  | base => exact le_rfl
  | succ k hk ih =>
      exact le_trans ih
        (le_add_of_nonneg_right (currentDelayAt_nonneg config rand hd hf hM (k + 1)))

theorem currentDelayAt_linear (config : RetryConfig) (rand : ℕ → ℚ)
    (ht : config.type = .linear) (hj : config.jitter = false) (i : ℕ) :
    currentDelayAt config rand i
      = config.initialDelay + (i : ℚ) * config.factor := by
  induction i with
  | zero => simp [currentDelayAt]
  | succ k ih =>
      rw [currentDelayAt, stepDelay, applyJitter_of_false config hj,
        growDelay_of_linear config ht, ih]
      push_cast
      ring

theorem cumulativeAt_linear (config : RetryConfig) (rand : ℕ → ℚ)
    (ht : config.type = .linear) (hj : config.jitter = false) (i : ℕ) :
    cumulativeAt config rand i
      = ∑ k in Finset.range (i + 1),
          (config.initialDelay + (k : ℚ) * config.factor) := by
  induction i with
  | zero => simp [cumulativeAt]
  | succ k ih =>
      rw [Finset.sum_range_succ, ← ih, cumulativeAt,
        currentDelayAt_linear config rand ht hj]

theorem currentDelayAt_capped (config : RetryConfig) (rand : ℕ → ℚ)
    (ht : config.type = .cappedExponential) (hj : config.jitter = false)
    {M : ℚ} (hm : config.maxDuration = some M) (hM0 : 0 < M)
    (hdM : config.initialDelay ≤ M)
    (hf : 1 ≤ config.factor) (i : ℕ) :
    currentDelayAt config rand i
      = min (config.initialDelay * config.factor ^ i) M := by
  have hf0 : (0 : ℚ) ≤ config.factor := le_trans zero_le_one hf
  induction i with
  | zero => simp [currentDelayAt, min_eq_left hdM]
  | succ k ih =>
      rw [currentDelayAt, stepDelay, applyJitter_of_false config hj,
        growDelay_of_capped config ht hm hM0.ne', ih]
      rcases le_total (config.initialDelay * config.factor ^ k) M with hle | hge
      · rw [min_eq_left hle, pow_succ, ← mul_assoc]
      · have h1 : M ≤ M * config.factor := le_mul_of_one_le_right hM0.le hf
        have h2 : M * config.factor
            ≤ config.initialDelay * config.factor ^ k * config.factor :=
          mul_le_mul_of_nonneg_right hge hf0
        rw [min_eq_right hge, min_eq_right h1, pow_succ, ← mul_assoc,
          min_eq_right (le_trans h1 h2)]

/-! ### Claims -/

/-- C4 (amended): for every configuration with non-negative `initialDelay`,
`factor` and (when present) `maxDuration`, and any draw stream, the sequence
returned by `calculateRetryDurations` is monotonically non-decreasing —
`durations[i] ≤ durations[i+1]` whenever both indices are in range — because
each step adds a non-negative delay. (The unrestricted claim is refuted by
`claim_C4_counterexample`: a negative `factor` makes a step delay negative.) -/
theorem claim_C4_amended (config : RetryConfig) (rand : ℕ → ℚ) (n : ℕ)
    (hd : 0 ≤ config.initialDelay) (hf : 0 ≤ config.factor)
    (hM : ∀ m ∈ config.maxDuration, 0 ≤ m) :
    ∀ i, i + 1 < max 1 n →
      (calculateRetryDurations config rand n).getD i 0
        ≤ (calculateRetryDurations config rand n).getD (i + 1) 0
      ∧ 0 ≤ stepDelayOfDurations (calculateRetryDurations config rand n) (i + 1) := by
  intro i h
  have hi : i < max 1 n := Nat.lt_of_succ_lt h
  constructor
  · rw [calcRD_getD config rand hi, calcRD_getD config rand h]
    exact cumulativeAt_mono config rand hd hf hM (Nat.le_succ i)
  · rw [stepDelayOf_calcRD config rand h]
    exact currentDelayAt_nonneg config rand hd hf hM (i + 1)

/-- Witness for C4: the spec's linear example at indices 0 and 1. -/
theorem claim_C4_witness :
    (calculateRetryDurations cfgLinearExample zeroDraws 3).getD 0 0
      ≤ (calculateRetryDurations cfgLinearExample zeroDraws 3).getD 1 0 :=
  (claim_C4_amended cfgLinearExample zeroDraws 3
    (by norm_num [cfgLinearExample]) (by norm_num [cfgLinearExample])
    (by simp [cfgLinearExample]) 0 (by norm_num)).1

/-- Counterexample to C4 as stated: for the linear configuration with
`initialDelay = 1000` and `factor = -2000` (no jitter), the output of
`calculateRetryDurations` for `maxRetries = 2` is `[1000, 0]`, which is
decreasing. -/
theorem claim_C4_counterexample :
    ((calculateRetryDurations cfgLinearNegFactor zeroDraws 2).getD 0 0
      ≤ (calculateRetryDurations cfgLinearNegFactor zeroDraws 2).getD 1 0) = False :=
  eq_false (by
    norm_num [calculateRetryDurations, cumulativeAt, currentDelayAt, stepDelay,
      applyJitter, growDelay, cfgLinearNegFactor, List.range_succ])

/-- C5 (confirmed): for a `linear` configuration without jitter the per-step
raw delay at step `i` equals `initialDelay + i * factor`, the cumulative
value at index `i` is the sum of the raw delays of steps `0..i`, and the
spec's example (`initialDelay = factor = 1000`, `maxRetries = 3`) yields
`[1000, 3000, 6000]`. -/
theorem claim_C5 (config : RetryConfig) (rand : ℕ → ℚ) (n : ℕ)
    (ht : config.type = .linear) (hj : config.jitter = false) :
    (∀ i, i < max 1 n →
        stepDelayOfDurations (calculateRetryDurations config rand n) i
          = config.initialDelay + (i : ℚ) * config.factor
        ∧ (calculateRetryDurations config rand n).getD i 0
          = ∑ k in Finset.range (i + 1),
              (config.initialDelay + (k : ℚ) * config.factor))
    ∧ calculateRetryDurations cfgLinearExample rand 3 = [1000, 3000, 6000] := by
  constructor
  · intro i hi
    constructor
    · rw [stepDelayOf_calcRD config rand hi,
        currentDelayAt_linear config rand ht hj]
    · rw [calcRD_getD config rand hi, cumulativeAt_linear config rand ht hj]
  · rw [calcRD_eq_of_jitter_false cfgLinearExample rfl rand zeroDraws]
    norm_num [calculateRetryDurations, cumulativeAt, currentDelayAt, stepDelay,
      applyJitter, growDelay, cfgLinearExample, List.range_succ]

/-- Witness for C5: the spec's linear example evaluated concretely. -/
theorem claim_C5_witness :
    calculateRetryDurations cfgLinearExample zeroDraws 3 = [1000, 3000, 6000] :=
  (claim_C5 cfgLinearExample zeroDraws 3 rfl rfl).2

/-- C9 (confirmed): a `capped-exponential` configuration whose `maxDuration`
is absent or 0 (falsy in JavaScript) behaves exactly like the
otherwise-identical `exponential` configuration: a cap of 0 never clamps. -/
theorem claim_C9 (config : RetryConfig) (rand : ℕ → ℚ) (n : ℕ)
    (ht : config.type = .cappedExponential)
    (hm : config.maxDuration = none ∨ config.maxDuration = some 0) :
    calculateRetryDurations config rand n
      = calculateRetryDurations { config with type := .exponential } rand n := by
  have hgrow : ∀ d, growDelay config d
      = growDelay { config with type := .exponential } d := by
    intro d
    rcases hm with hm | hm
    · rw [growDelay_of_capped_none config ht hm, growDelay_of_exponential _ rfl]
    · rw [growDelay_of_capped_zero config ht hm, growDelay_of_exponential _ rfl]
  have hjit : ∀ (r d : ℚ), applyJitter config r d
      = applyJitter { config with type := .exponential } r d := by
    intro r d
    simp [applyJitter]
  have hdelay : ∀ i, currentDelayAt config rand i
      = currentDelayAt { config with type := .exponential } rand i := by
    intro i
    induction i with
    | zero => rfl
    | succ k ih =>
        rw [currentDelayAt, currentDelayAt, stepDelay, stepDelay, hgrow, ih, hjit]
  have hcum : ∀ i, cumulativeAt config rand i
      = cumulativeAt { config with type := .exponential } rand i := by
    intro i
    induction i with
    | zero => rfl
    | succ k ih => rw [cumulativeAt, cumulativeAt, ih, hdelay]
  unfold calculateRetryDurations
  exact List.map_congr_left (fun i _ => hcum i)

/-- Witness for C9: the capped configuration with `maxDuration = some 0`. -/
theorem claim_C9_witness :
    calculateRetryDurations cfgCapZero zeroDraws 4
      = calculateRetryDurations { cfgCapZero with type := .exponential } zeroDraws 4 :=
  claim_C9 cfgCapZero zeroDraws 4 rfl (Or.inr rfl)

/-- C10 (amended): with `jitter = true` and `jitterRange = 0` the output is
independent of the draws and equals the cumulative sums of the recursively
clamped delays `delay_0 = initialDelay`, `delay_{i+1} = max 0 (growth rule
applied to delay_i)` — the clamp feeds the next step, it is not applied
pointwise to the jitter-free delays (that reading is refuted by
`claim_C10_counterexample`); zero-range jitter still changes the output,
e.g. for `cfgExpNegFactor`, whose jitter-free delay is negative at step 1. -/
theorem claim_C10_amended (config : RetryConfig) (rand rand' : ℕ → ℚ) (n : ℕ)
    (hj : config.jitter = true) (hR : config.jitterRange = 0) :
    calculateRetryDurations config rand n
      = (List.range (max 1 n)).map (recClampCumulative config)
    ∧ calculateRetryDurations config rand n
      = calculateRetryDurations config rand' n
    ∧ calculateRetryDurations cfgExpNegFactor zeroDraws 3
      ≠ calculateRetryDurations { cfgExpNegFactor with jitter := false } zeroDraws 3 := by
  have hdelay : ∀ (r : ℕ → ℚ) i,
      currentDelayAt config r i = recClampDelay config i := by
    intro r i
    induction i with
    | zero => rfl
    | succ k ih =>
        rw [currentDelayAt, stepDelay, applyJitter_of_true config hj, hR, ih,
          recClampDelay]
        rw [mul_zero, add_zero]
  have hcum : ∀ (r : ℕ → ℚ) i,
      cumulativeAt config r i = recClampCumulative config i := by
    intro r i
    induction i with
    | zero => rfl
    | succ k ih => rw [cumulativeAt, recClampCumulative, ih, hdelay]
  have hmap : ∀ r : ℕ → ℚ, calculateRetryDurations config r n
      = (List.range (max 1 n)).map (recClampCumulative config) := by
    intro r
    unfold calculateRetryDurations
    exact List.map_congr_left (fun i _ => hcum r i)
  refine ⟨hmap rand, (hmap rand).trans (hmap rand').symm, ?_⟩
  norm_num [calculateRetryDurations, cumulativeAt, currentDelayAt, stepDelay,
    applyJitter, growDelay, cfgExpNegFactor, List.range_succ]

/-- Witness for C10: the zero-range-jitter configuration `cfgExpNegFactor`
evaluated against the recursively clamped series. -/
theorem claim_C10_witness :
    calculateRetryDurations cfgExpNegFactor zeroDraws 3
      = (List.range (max 1 3)).map (recClampCumulative cfgExpNegFactor) :=
  (claim_C10_amended cfgExpNegFactor zeroDraws halfDraws 3 rfl rfl).1

/-- Counterexample to C10 as stated: for `cfgExpNegFactor` (exponential,
`initialDelay = 1`, `factor = -2`, zero-range jitter) the code returns
`[1, 1, 1]`, while clamping each jitter-free per-step delay pointwise gives
`[1, 1, 5]`: the clamp of step 1 changes the base step 2 compounds on. -/
theorem claim_C10_counterexample :
    (calculateRetryDurations cfgExpNegFactor zeroDraws 3
      = (List.range 3).map (pointwiseClampedCumulative cfgExpNegFactor)) = False :=
  eq_false (by
    norm_num [calculateRetryDurations, cumulativeAt, currentDelayAt, stepDelay,
      applyJitter, growDelay, pointwiseClampedCumulative, rawDelayAt,
      cfgExpNegFactor, List.range_succ])

/-- C6 (amended): for `maxRetries ≥ 1` and non-negative `initialDelay`,
`factor` and (when present) `maxDuration`, `calculateRetryDurations` returns
exactly `maxRetries` non-negative entries, and for `maxRetries = 1` it
returns `[initialDelay]` (the latter for every configuration). The totality
of the embedding models "never throws". (The unrestricted non-negativity is
refuted by `claim_C6_counterexample`.) -/
theorem claim_C6_amended (config : RetryConfig) (rand : ℕ → ℚ) (n : ℕ)
    (hn : 1 ≤ n) (hd : 0 ≤ config.initialDelay) (hf : 0 ≤ config.factor)
    (hM : ∀ m ∈ config.maxDuration, 0 ≤ m) :
    (calculateRetryDurations config rand n).length = n
    ∧ (∀ x ∈ calculateRetryDurations config rand n, 0 ≤ x)
    ∧ calculateRetryDurations config rand 1 = [config.initialDelay] := by
  refine ⟨?_, ?_, ?_⟩
  · rw [calcRD_length, Nat.max_eq_right hn]
  · intro x hx
    rw [calculateRetryDurations] at hx
    obtain ⟨i, hi, rfl⟩ := List.mem_map.mp hx
    exact cumulativeAt_nonneg config rand hd hf hM i
  · simp [calculateRetryDurations, cumulativeAt, List.range_succ]

/-- Witness for C6: the spec's linear example with `maxRetries = 1`. -/
theorem claim_C6_witness :
    calculateRetryDurations cfgLinearExample zeroDraws 1
      = [cfgLinearExample.initialDelay] :=
  (claim_C6_amended cfgLinearExample zeroDraws 1 (by norm_num)
    (by norm_num [cfgLinearExample]) (by norm_num [cfgLinearExample])
    (by simp [cfgLinearExample])).2.2

/-- Counterexample to C6 as stated: the linear configuration with
`initialDelay = 0` and `factor = -1` has finite numeric fields, yet
`calculateRetryDurations` for `maxRetries = 2` returns `[0, -1]`, which
contains a negative entry. -/
theorem claim_C6_counterexample :
    (-1 : ℚ) ∈ calculateRetryDurations cfgLinearNegDelay zeroDraws 2
    ∧ ((0 : ℚ) ≤ (-1 : ℚ)) = False := by
  constructor
  · norm_num [calculateRetryDurations, cumulativeAt, currentDelayAt, stepDelay,
      applyJitter, growDelay, cfgLinearNegDelay, List.range_succ]
  · exact eq_false (by norm_num)

/-- C1 (amended): for a `capped-exponential` configuration with
`jitter = false`, `maxDuration = M` provided with `0 < M`,
`0 ≤ initialDelay ≤ M` and `factor ≥ 1`, the per-step raw delay at step `i`
equals `min (initialDelay * factor ^ i) M`, the per-step delays are
non-decreasing, and once a step's delay equals `M` every later step's delay
is `M`. (Without `initialDelay ≤ M` the claim fails at step 0, which the
code never caps: see `claim_C1_counterexample`.) -/
theorem claim_C1_amended (config : RetryConfig) (rand : ℕ → ℚ) (M : ℚ)
    (n : ℕ) (ht : config.type = .cappedExponential) (hj : config.jitter = false)
    (hm : config.maxDuration = some M) (hM0 : 0 < M)
    (hd : 0 ≤ config.initialDelay) (hdM : config.initialDelay ≤ M)
    (hf : 1 ≤ config.factor) (hn : 1 ≤ n) :
    ∀ i, i < n →
      stepDelayOfDurations (calculateRetryDurations config rand n) i
        = min (config.initialDelay * config.factor ^ i) M
      ∧ (∀ j, j < n → i ≤ j →
          stepDelayOfDurations (calculateRetryDurations config rand n) i
            ≤ stepDelayOfDurations (calculateRetryDurations config rand n) j)
      ∧ (stepDelayOfDurations (calculateRetryDurations config rand n) i = M →
          ∀ j, j < n → i ≤ j →
            stepDelayOfDurations (calculateRetryDurations config rand n) j = M) := by
  have hstep : ∀ i, i < n →
      stepDelayOfDurations (calculateRetryDurations config rand n) i
        = min (config.initialDelay * config.factor ^ i) M := by
    intro i hi
    rw [stepDelayOf_calcRD config rand (lt_of_lt_of_le hi (le_max_right 1 n)),
      currentDelayAt_capped config rand ht hj hm hM0 hdM hf]
  have hgrow : ∀ {i j : ℕ}, i ≤ j →
      config.initialDelay * config.factor ^ i
        ≤ config.initialDelay * config.factor ^ j :=
    fun hij => mul_le_mul_of_nonneg_left (pow_le_pow_right₀ hf hij) hd
  intro i hi
  refine ⟨hstep i hi, ?_, ?_⟩
  · intro j hjn hij
    rw [hstep i hi, hstep j hjn]
    exact min_le_min (hgrow hij) le_rfl
  · intro hcap j hjn hij
    rw [hstep i hi] at hcap
    rw [hstep j hjn]
    exact min_eq_right ((min_eq_right_iff.mp hcap).trans (hgrow hij))

/-- Witness for C1: the spec's capped example at step 3, where the cap has
been hit (`min (1000 * 2 ^ 3) 5000 = 5000`). -/
theorem claim_C1_witness :
    stepDelayOfDurations (calculateRetryDurations cfgCappedExample zeroDraws 4) 3
      = min (cfgCappedExample.initialDelay * cfgCappedExample.factor ^ 3) 5000 :=
  (claim_C1_amended cfgCappedExample zeroDraws 5000 4 rfl rfl rfl
    (by norm_num) (by norm_num [cfgCappedExample]) (by norm_num [cfgCappedExample])
    (by norm_num [cfgCappedExample]) (by norm_num) 3 (by norm_num)).1

/-- Counterexample to C1 as stated: for the capped configuration with
`initialDelay = 1000`, `factor = 2`, `maxDuration = 500` and
`maxRetries = 1`, step 0's delay is `durations[0] = 1000`, not
`min (1000 * 2 ^ 0) 500 = 500`: the code never caps `durations[0]`. -/
theorem claim_C1_counterexample :
    (stepDelayOfDurations (calculateRetryDurations cfgCapBelowInitial zeroDraws 1) 0
      = min (cfgCapBelowInitial.initialDelay * cfgCapBelowInitial.factor ^ 0) 500)
      = False :=
  eq_false (by
    norm_num [stepDelayOfDurations, calculateRetryDurations, cumulativeAt,
      cfgCapBelowInitial, List.range_succ])

/-- C3 (amended): with `jitter = true`, non-negative `initialDelay` and
`jitterRange`, and draws from `[0, 1)`, every per-step delay of
`calculateRetryDurations` is non-negative, and the delay of step `i + 1`
lies within `jitterRange` of the growth rule applied to the *previous
realised (jittered) delay*, clamped at 0. The claim's interval
`[raw - jitterRange, raw + jitterRange]` around the jitter-free delay is
wrong because jitter compounds through the recurrence: see
`claim_C3_counterexample`. -/
theorem claim_C3_amended (config : RetryConfig) (rand : ℕ → ℚ) (n : ℕ)
    (hj : config.jitter = true) (hd : 0 ≤ config.initialDelay)
    (hR : 0 ≤ config.jitterRange) (hv : ValidDraws rand) :
    (∀ i, i < max 1 n →
        0 ≤ stepDelayOfDurations (calculateRetryDurations config rand n) i)
    ∧ (∀ i, i + 1 < max 1 n →
        max 0 (growDelay config
            (stepDelayOfDurations (calculateRetryDurations config rand n) i)
          - config.jitterRange)
          ≤ stepDelayOfDurations (calculateRetryDurations config rand n) (i + 1)
        ∧ stepDelayOfDurations (calculateRetryDurations config rand n) (i + 1)
          ≤ max 0 (growDelay config
              (stepDelayOfDurations (calculateRetryDurations config rand n) i)
            + config.jitterRange)) := by
  constructor
  · intro i hi
    rw [stepDelayOf_calcRD config rand hi]
    rcases i with _ | k
    · exact hd
    · rw [currentDelayAt, stepDelay, applyJitter_of_true config hj]
      exact le_max_left 0 _
  · intro i hi1
    have hi : i < max 1 n := Nat.lt_of_succ_lt hi1
    rw [stepDelayOf_calcRD config rand hi1, stepDelayOf_calcRD config rand hi,
      currentDelayAt, stepDelay, applyJitter_of_true config hj]
    obtain ⟨hr0, hr1⟩ := hv i
    constructor
    · apply max_le_max le_rfl
      nlinarith [mul_nonneg hr0 hR]
    · apply max_le_max le_rfl
      nlinarith [mul_nonneg (sub_nonneg.mpr hr1.le) hR]

/-- Witness for C3: the jittered exponential configuration with draws 1/2
(zero realised jitter), step 1 against step 0. -/
theorem claim_C3_witness :
    max 0 (growDelay cfgExpJitter
        (stepDelayOfDurations (calculateRetryDurations cfgExpJitter halfDraws 2) 0)
      - cfgExpJitter.jitterRange)
      ≤ stepDelayOfDurations (calculateRetryDurations cfgExpJitter halfDraws 2) 1 :=
  ((claim_C3_amended cfgExpJitter halfDraws 2 rfl (by norm_num [cfgExpJitter])
      (by norm_num [cfgExpJitter])
      (fun k => by constructor <;> norm_num [halfDraws])).2
    0 (by norm_num)).1

/-- Counterexample to C3 as stated: for the jittered exponential
configuration (`initialDelay = 1000`, `factor = 2`, `jitterRange = 100`) and
the valid draw stream constantly 199/200 (realised jitter +99 per step), the
per-step delay at step 2 is 4297, outside
`[raw - jitterRange, raw + jitterRange] = [3900, 4100]` around the
jitter-free delay `raw = 4000`: jitter compounds across steps. -/
theorem claim_C3_counterexample :
    ValidDraws highDraws
    ∧ (stepDelayOfDurations (calculateRetryDurations cfgExpJitter highDraws 3) 2
        ≤ rawDelayAt cfgExpJitter 2 + cfgExpJitter.jitterRange) = False := by
  constructor
  · intro k
    constructor <;> norm_num [highDraws]
  · apply eq_false
    norm_num [stepDelayOfDurations, calculateRetryDurations, cumulativeAt,
      currentDelayAt, stepDelay, applyJitter, growDelay, rawDelayAt,
      cfgExpJitter, highDraws, List.range_succ]

/-- C7 (amended): without jitter the computation reads no draw, so identical
inputs give identical sequences; with `jitter = true`, `jitterRange > 0`,
`maxRetries ≥ 2` *and non-negative `initialDelay`, `factor` and cap*, the
runs drawing constantly 1/2 and constantly 3/4 give different outputs. The
existence of differing runs fails for arbitrary numeric fields: a growth
rule stuck far below zero clamps every draw to the same delay 0
(`claim_C7_counterexample`). -/
theorem claim_C7_amended (config : RetryConfig) (rand rand' : ℕ → ℚ) (n : ℕ)
    (hd : 0 ≤ config.initialDelay) (hf : 0 ≤ config.factor)
    (hM : ∀ m ∈ config.maxDuration, 0 ≤ m) :
    (config.jitter = false →
      calculateRetryDurations config rand n = calculateRetryDurations config rand' n)
    ∧ (config.jitter = true → 0 < config.jitterRange → 2 ≤ n →
        calculateRetryDurations config halfDraws n
          ≠ calculateRetryDurations config threeQuarterDraws n) := by
  refine ⟨fun hj => calcRD_eq_of_jitter_false config hj rand rand' n, ?_⟩
  intro hj hR hn heq
  have hmax : 1 < max 1 n := lt_of_lt_of_le hn (le_max_right 1 n)
  have h1 : (calculateRetryDurations config halfDraws n).getD 1 0
      = (calculateRetryDurations config threeQuarterDraws n).getD 1 0 := by rw [heq]
  rw [calcRD_getD config halfDraws hmax, calcRD_getD config threeQuarterDraws hmax] at h1
  have hb : 0 ≤ growDelay config config.initialDelay :=
    growDelay_nonneg config hf hM hd
  simp only [cumulativeAt, currentDelayAt, stepDelay,
    applyJitter_of_true config hj, halfDraws, threeQuarterDraws] at h1
  norm_num at h1
  rw [max_eq_right hb] at h1
  have hhalf : max 0 (growDelay config config.initialDelay + 1 / 2 * config.jitterRange)
      = growDelay config config.initialDelay + 1 / 2 * config.jitterRange :=
    max_eq_right (by linarith)
  rw [hhalf] at h1
  linarith

/-- Witness for C7: the jittered exponential configuration distinguishes the
constant-1/2 and constant-3/4 runs already at `maxRetries = 2`. -/
theorem claim_C7_witness :
    (calculateRetryDurations cfgExpJitter halfDraws 2
      = calculateRetryDurations cfgExpJitter threeQuarterDraws 2) = False :=
  eq_false ((claim_C7_amended cfgExpJitter zeroDraws zeroDraws 2
    (by norm_num [cfgExpJitter]) (by norm_num [cfgExpJitter])
    (by simp [cfgExpJitter])).2 rfl (by norm_num [cfgExpJitter]) (by norm_num))

/-- Counterexample to C7 as stated: `cfgJitterSwamped` has `jitter = true`,
`jitterRange = 1 > 0` and `maxRetries = 2 ≥ 2`, yet every pair of valid
draw streams yields the same output `[0, 0]`: the growth rule's value `-2`
plus any jitter from `[-1, 1)` is negative, so the clamp always returns 0. -/
theorem claim_C7_counterexample :
    (∃ r1 r2 : ℕ → ℚ, ValidDraws r1 ∧ ValidDraws r2
      ∧ calculateRetryDurations cfgJitterSwamped r1 2
        ≠ calculateRetryDurations cfgJitterSwamped r2 2) = False := by
  apply eq_false
  rintro ⟨r1, r2, h1, h2, hne⟩
  have key : ∀ r : ℕ → ℚ, ValidDraws r →
      calculateRetryDurations cfgJitterSwamped r 2 = [0, 0] := by
    intro r hr
    obtain ⟨hr0, hr1⟩ := hr 0
    have hstep : currentDelayAt cfgJitterSwamped r 1 = 0 := by
      rw [currentDelayAt, currentDelayAt, stepDelay,
        growDelay_of_linear _ rfl, applyJitter_of_true _ rfl]
      apply max_eq_left
      have e1 : cfgJitterSwamped.initialDelay = 0 := rfl
      have e2 : cfgJitterSwamped.factor = -2 := rfl
      have e3 : cfgJitterSwamped.jitterRange = 1 := rfl
      rw [e1, e2, e3]
      linarith
    simp [calculateRetryDurations, List.range_succ, cumulativeAt, hstep]
    rfl
  rw [key r1 h1, key r2 h2] at hne
  exact hne rfl

/-- C8 (confirmed): `formatTime` renders with two decimals as milliseconds
below 1000 ms, as seconds below 60000 ms, as minutes below 3600000 ms and as
hours otherwise, and the spec's four examples evaluate as stated
(`toFixed2` is the idealised decimal semantics of `toFixed(2)`). -/
theorem claim_C8 (m : ℚ) (h0 : 0 ≤ m) :
    (m < 1000 → formatTime m = toFixed2 m ++ "ms")
    ∧ (1000 ≤ m → m < 60000 → formatTime m = toFixed2 (m / 1000) ++ "s")
    ∧ (60000 ≤ m → m < 3600000 → formatTime m = toFixed2 (m / 60000) ++ "m")
    ∧ (3600000 ≤ m → formatTime m = toFixed2 (m / 3600000) ++ "h")
    ∧ formatTime 500 = "500.00ms" ∧ formatTime 1500 = "1.50s"
    ∧ formatTime 90000 = "1.50m" ∧ formatTime 7200000 = "2.00h" := by
  refine ⟨?_, ?_, ?_, ?_, ?_, ?_, ?_, ?_⟩
  · intro h
    rw [formatTime, if_pos h]
  · intro hlo hhi
    rw [formatTime, if_neg (not_lt.mpr hlo), if_pos hhi]
  · intro hlo hhi
    rw [formatTime, if_neg (by linarith), if_neg (not_lt.mpr hlo), if_pos hhi]
  · intro hlo
    rw [formatTime, if_neg (by linarith), if_neg (by linarith),
      if_neg (not_lt.mpr hlo)]
  · norm_num [formatTime, toFixed2]
    decide
  · norm_num [formatTime, toFixed2]
    decide
  · norm_num [formatTime, toFixed2]
    decide
  · norm_num [formatTime, toFixed2]
    decide

/-- Witness for C8: the first example, `formatTime 500 = "500.00ms"`. -/
theorem claim_C8_witness : formatTime 500 = "500.00ms" :=
  (claim_C8 500 (by norm_num)).2.2.2.2.1

/-- The chart frame has one row per retry count `0 .. maxRetries`. -/
theorem chartData_length (configs : List RetryConfig) (n : ℕ) (rand : ℕ → ℚ) :
    (chartData configs n rand).length = n + 1 := by
  simp [chartData]

theorem chartData_getD (configs : List RetryConfig) (n : ℕ) (rand : ℕ → ℚ)
    {i : ℕ} (h : i ≤ n) :
    (chartData configs n rand).getD i (0, [])
      = (i, chartRowValues n i rand configs (i * rowDraws configs n)) := by
  have hlen : i < ((List.range (n + 1)).map
      (fun i => (i, chartRowValues n i rand configs (i * rowDraws configs n)))).length := by
    simpa using Nat.lt_succ_of_le h
  rw [chartData, List.getD_eq_getElem _ _ hlen]
  simp

theorem chartValue_eq (configs : List RetryConfig) (n : ℕ) (rand : ℕ → ℚ)
    {i : ℕ} (h : i ≤ n) (j : ℕ) :
    chartValue configs n rand i j
      = (chartRowValues n i rand configs (i * rowDraws configs n)).getD j 0 := by
  rw [chartValue, chartData_getD configs n rand h]

/-- For jitter-free configurations the per-row engine invocations read no
draw, so every column value equals the one of a single reference run. -/
theorem chartRowValues_getD_of_jitter_false (n i : ℕ) (rand : ℕ → ℚ) :
    ∀ (configs : List RetryConfig) (off j : ℕ),
      (∀ c ∈ configs, c.jitter = false) → j < configs.length →
      (chartRowValues n i rand configs off).getD j 0
        = if i = 0 then 0
          else (calculateRetryDurations (configs.getD j default) zeroDraws n).getD (i - 1) 0 := by
  intro configs
  induction configs with
  | nil =>
      intro off j _ hj
      simp at hj
  | cons c rest ih =>
      intro off j hall hj
      rcases j with _ | j'
      · rw [chartRowValues]
        by_cases hi : i = 0
        · simp [hi]
        · simp only [hi, if_false, List.getD_cons_zero]
          rw [calcRD_eq_of_jitter_false c (hall c (List.mem_cons_self c rest))
            (shiftStream rand off) zeroDraws]
      · rw [chartRowValues]
        simp only [List.getD_cons_succ]
        exact ih (off + drawsConsumed c n) j'
          (fun x hx => hall x (List.mem_cons_of_mem c hx))
          (Nat.lt_of_succ_lt_succ hj)

/-- C2 (amended): the chart frame has rows for retry counts
`0 .. maxRetries`, row `i` carries retry count `i`, every column value is 0
at retry count 0, and — when every configuration is jitter-free — the value
at retry count `i ≥ 1` for configuration `j` equals entry `i - 1` of that
configuration's duration series. The code invokes the Backoff Engine once
per configuration *per row*, not once per configuration per recompute; for
jittered configurations the rows of one column therefore come from
different series (refuted as stated by `claim_C2_counterexample`). -/
theorem claim_C2_amended (configs : List RetryConfig) (n : ℕ) (rand : ℕ → ℚ)
    (hall : ∀ c ∈ configs, c.jitter = false) :
    (chartData configs n rand).length = n + 1
    ∧ (∀ i, i ≤ n → ((chartData configs n rand).getD i (0, [])).1 = i)
    ∧ (∀ i, i ≤ n → ∀ j, j < configs.length →
        chartValue configs n rand i j
          = if i = 0 then 0
            else (calculateRetryDurations (configs.getD j default) zeroDraws n).getD (i - 1) 0) := by
  refine ⟨chartData_length configs n rand, ?_, ?_⟩
  · intro i hi
    rw [chartData_getD configs n rand hi]
  · intro i hi j hj
    rw [chartValue_eq configs n rand hi j]
    exact chartRowValues_getD_of_jitter_false n i rand configs _ j hall hj

/-- Witness for C2: a one-configuration jitter-free chart at retry count 1. -/
theorem claim_C2_witness :
    chartValue [cfgLinearExample] 3 zeroDraws 1 0
      = if 1 = 0 then 0
        else (calculateRetryDurations ([cfgLinearExample].getD 0 default)
                zeroDraws 3).getD (1 - 1) 0 :=
  (claim_C2_amended [cfgLinearExample] 3 zeroDraws
    (by
      intro c hc
      simp only [List.mem_singleton] at hc
      rw [hc]
      rfl)).2.2 1 (by norm_num) 0 (by norm_num)

/-- Counterexample to C2 as stated: one jittered configuration
(`cfgExpCompound`), `maxRetries = 3`, global draw stream `mixedStream`. The
chart column reads 0, 1, 101, 10000 at retry counts 0–3, and *no* single
engine run with valid draws produces a series matching rows 1–3: matching
row 2 forces the first draw to be 1/2, and then entry 2 of any single run
lies in `[10000, 10102)`, while row 3 demands `10000 = 101 + 9899` with the
second step equal to 9899 — impossible. Each row of the code's chart comes
from a separate engine invocation. -/
theorem claim_C2_counterexample :
    (∃ rand' : ℕ → ℚ, ValidDraws rand'
      ∧ ∀ i, i ≤ 3 →
          chartValue [cfgExpCompound] 3 mixedStream i 0
            = if i = 0 then 0
              else (calculateRetryDurations cfgExpCompound rand' 3).getD (i - 1) 0) = False := by
  apply eq_false
  rintro ⟨r, hr, hmatch⟩
  have hL2 : chartValue [cfgExpCompound] 3 mixedStream 2 0 = 101 := by
    norm_num [chartValue, chartData, chartRowValues, rowDraws, drawsConsumed,
      calculateRetryDurations, cumulativeAt, currentDelayAt, stepDelay,
      applyJitter, growDelay, cfgExpCompound, mixedStream, shiftStream, List.range_succ]
  have hL3 : chartValue [cfgExpCompound] 3 mixedStream 3 0 = 10000 := by
    norm_num [chartValue, chartData, chartRowValues, rowDraws, drawsConsumed,
      calculateRetryDurations, cumulativeAt, currentDelayAt, stepDelay,
      applyJitter, growDelay, cfgExpCompound, mixedStream, shiftStream, List.range_succ]
  have h2 := hmatch 2 (by norm_num)
  have h3 := hmatch 3 (by norm_num)
  rw [hL2, if_neg (by norm_num : ¬(2 = 0)), show (2 : ℕ) - 1 = 1 by norm_num,
    calcRD_getD cfgExpCompound r (by norm_num)] at h2
  rw [hL3, if_neg (by norm_num : ¬(3 = 0)), show (3 : ℕ) - 1 = 2 by norm_num,
    calcRD_getD cfgExpCompound r (by norm_num)] at h3
  obtain ⟨hr0, hr0'⟩ := hr 0
  obtain ⟨hr1, hr1'⟩ := hr 1
  simp only [cumulativeAt, currentDelayAt, stepDelay,
    growDelay_of_exponential cfgExpCompound rfl,
    applyJitter_of_true cfgExpCompound rfl] at h2 h3
  norm_num [cfgExpCompound] at h2 h3
  have hm1 : (0 : ℚ) ⊔ (100 + (r 0 * 2 - 1)) = 100 + (r 0 * 2 - 1) :=
    max_eq_right (by linarith)
  rw [hm1] at h2 h3
  have hA : (100 + (r 0 * 2 - 1)) * 100 + (r 1 * 2 - 1)
      ≤ (0 : ℚ) ⊔ ((100 + (r 0 * 2 - 1)) * 100 + (r 1 * 2 - 1)) := le_max_right _ _
  linarith
